import Mathlib

/-!
Verification development for the solana-validator-ha failover engine.

The definitions below are a shallow embedding of the Go sources:
  * `internal/rpc/clients.go`        — multi-endpoint RPC gateway ordering
  * `internal/gossip/state.go`       — gossip state tracker (`Refresh`,
    `isNodeActiveAndVoting`, query predicates)
  * the HA manager (`ensureHAState`, `ensureActive`, `ensurePassive`,
    `delayTakeover`, `NewManager`)
  * `internal/config/hook.go` (`RunPre`/`RunPost`), `internal/config/role.go`
    (`RunCommand`) and `internal/command/command.go` (`Run`)
  * `internal/config` failover validation (modelled from the spec where the
    source is absent)

External effects (RPC calls, TCP dials, random draws, subprocess exits,
wall-clock reads) are passed in explicitly as environment records; an RPC
result that can fail is an `Option`, with `none` standing for the error
case.  A Go panic is modelled by an `Option` result of the whole operation
being `none`.
-/

namespace SolanaValidatorHA

/-! ## Cluster RPC gateway (internal/rpc/clients.go) -/

/-- Embedding of `Client.getURLsToTry`: the attempt order over endpoint URLs.
`lastSuccessfulURL = ""` means no prior success has been recorded (the field
is initialised to the empty string in `NewClient`). -/
def getURLsToTry (urls : List String) (lastSuccessfulURL : String) : List String :=
  if urls.length ≤ 1 ∨ lastSuccessfulURL = "" then
    urls
  else
    urls.filter (fun url => url ≠ lastSuccessfulURL) ++ [lastSuccessfulURL]

/-! ## Voting check (internal/gossip/state.go, isNodeActiveAndVoting) -/

/-- Result of `getVoteAccounts`, reduced to the node pubkeys of the two
lists, which is all `isNodeActiveAndVoting` inspects. -/
structure VoteAccounts where
  current : List String
  delinquent : List String
deriving Repr, DecidableEq

/-- RPC environment of the voting check: results of `getSlot`,
`getVoteAccounts` and `getBalance` (`none` = the RPC call fails). -/
structure VotingEnv where
  slot : Option Nat
  voteAccounts : Option VoteAccounts
  balance : String → Option Nat

/-- Rent-exempt minimum hardcoded at state.go line 267. -/
def rentExemptMinimum : Nat := 890880

/-- Embedding of `State.isNodeActiveAndVoting` for a node whose pubkey is
`pk`.  Mirrors the source: any RPC error yields `true`; a first match in the
delinquent list decides the answer by balance; otherwise membership in the
current list decides. -/
def isNodeActiveAndVoting (env : VotingEnv) (pk : String) : Bool :=
  match env.slot with
  | none => true
  | some _ =>
    match env.voteAccounts with
    | none => true
    | some va =>
      match va.delinquent.find? (fun d => d == pk) with
      | some d =>
        match env.balance d with
        | none => true
        | some b => decide (b ≤ rentExemptMinimum)
      | none => va.current.contains pk

/-! ## Commands and hooks (internal/command/command.go, config hooks/role) -/

/-- Embedding of `command.Run`: returns (number of subprocesses spawned,
success).  `execOk` is the exit status the subprocess would report if it
were spawned.  With `dryRun = true` the function returns success before
`exec.Command` is reached. -/
def commandRun (dryRun : Bool) (execOk : Bool) : Nat × Bool :=
  if dryRun then (0, true) else (1, execOk)

/-- Embedding of `config.Hook.Run`: early-returns success on dry-run before
delegating to `command.Run` (which would short-circuit again). -/
def hookRun (dryRun : Bool) (execOk : Bool) : Nat × Bool :=
  if dryRun then (0, true) else commandRun dryRun execOk

/-- Embedding of `config.Role.RunCommand`: early-returns success on dry-run
before delegating to `command.Run`. -/
def roleRunCommand (dryRun : Bool) (execOk : Bool) : Nat × Bool :=
  if dryRun then (0, true) else commandRun dryRun execOk

/-- Configuration of one hook together with the exit status its subprocess
would report if spawned (the latter is environment data). -/
structure HookSpec where
  mustSucceed : Bool
  execOk : Bool
deriving Repr, DecidableEq

/-- Result of running the pre-hook list: how many hooks were invoked (in
declared order), how many subprocesses were spawned, and whether the run
succeeded. -/
structure PreResult where
  invoked : Nat
  spawns : Nat
  ok : Bool
deriving Repr, DecidableEq

/-- Embedding of `config.Hooks.RunPre`: each hook is invoked in declared
order; a failing hook with `mustSucceed` returns the error immediately, a
failing hook without it is logged and iteration continues. -/
def runPre (dryRun : Bool) : List HookSpec → PreResult
  | [] => ⟨0, 0, true⟩
  | h :: rest =>
    let r := hookRun dryRun h.execOk
    if r.2 then
      let rec' := runPre dryRun rest
      ⟨rec'.invoked + 1, r.1 + rec'.spawns, rec'.ok⟩
    else if h.mustSucceed then
      ⟨1, r.1, false⟩
    else
      let rec' := runPre dryRun rest
      ⟨rec'.invoked + 1, r.1 + rec'.spawns, rec'.ok⟩

/-- Embedding of `config.Hooks.RunPost`: every hook is invoked, failures are
only logged.  Returns (hooks invoked, subprocesses spawned). -/
def runPost (dryRun : Bool) : List HookSpec → Nat × Nat
  | [] => (0, 0)
  | h :: rest =>
    let r := hookRun dryRun h.execOk
    let rest' := runPost dryRun rest
    (rest'.1 + 1, r.1 + rest'.2)

/-- Configuration-plus-environment of one role protocol run: the pre-hooks,
the exit status of the role command, and the post-hooks. -/
structure RoleSpec where
  preHooks : List HookSpec
  cmdOk : Bool
  postHooks : List HookSpec
deriving Repr, DecidableEq

/-- Observable execution record of a promotion/demotion protocol run. -/
structure ProtoResult where
  preInvoked : Nat
  commandInvoked : Bool
  postInvoked : Nat
  spawns : Nat
deriving Repr, DecidableEq

/-- Embedding of the manager's `ensureActive` command/hook sequence:
pre-hooks first (a `mustSucceed` failure aborts), then the active role
command (a failure returns before the post-hooks), then the post-hooks. -/
def ensureActiveModel (dryRun : Bool) (role : RoleSpec) : ProtoResult :=
  let pre := runPre dryRun role.preHooks
  if pre.ok = false then
    ⟨pre.invoked, false, 0, pre.spawns⟩
  else
    let cmd := roleRunCommand dryRun role.cmdOk
    if cmd.2 = false then
      ⟨pre.invoked, true, 0, pre.spawns + cmd.1⟩
    else
      let post := runPost dryRun role.postHooks
      ⟨pre.invoked, true, post.1, pre.spawns + cmd.1 + post.2⟩

/-- Embedding of the manager's `ensurePassive` command/hook sequence, which
has the same shape as `ensureActive` (its extra post-checks are local RPC
reads and gossip refreshes, which spawn nothing). -/
def ensurePassiveModel (dryRun : Bool) (role : RoleSpec) : ProtoResult :=
  let pre := runPre dryRun role.preHooks
  if pre.ok = false then
    ⟨pre.invoked, false, 0, pre.spawns⟩
  else
    let cmd := roleRunCommand dryRun role.cmdOk
    if cmd.2 = false then
      ⟨pre.invoked, true, 0, pre.spawns + cmd.1⟩
    else
      let post := runPost dryRun role.postHooks
      ⟨pre.invoked, true, post.1, pre.spawns + cmd.1 + post.2⟩

/-! ## Gossip state tracker (internal/gossip/state.go) -/

/-- Embedding of `gossip.PeerState`. -/
structure PeerState where
  name : String := ""
  ip : String := ""
  pubkey : String := ""
  lastSeenAtUTC : Nat := 0
  lastSeenActive : Bool := false
  isRecentlyInGossip : Bool := false
deriving Repr, DecidableEq, Inhabited

/-- Embedding of `gossip.State`.  `configPeers` is the `config.Peers` map as
an association list (name, IP); `peerStatesByName` is the peer-state map as
an association list keyed by name. -/
structure GossipState where
  peerStatesRefreshedAt : Nat
  peerStatesByName : List (String × PeerState)
  configPeers : List (String × String)
  activePubkey : String
  selfIP : String
  missingGossipIPs : List String
  lastActivePeer : PeerState
  activePeerLastSeenAt : Nat
  leaderlessSamplesCount : Nat
deriving Repr, DecidableEq

/-- One entry of a `getClusterNodes` response; `gossip` is the nilable
gossip address field (host:port). -/
structure ClusterNode where
  pubkey : String
  gossip : Option String
deriving Repr, DecidableEq

/-- Environment of one `Refresh`: the `getClusterNodes` result (`none` =
RPC error), the TCP liveness dial oracle keyed by gossip address, the
voting-check RPC environment, and the wall-clock reading. -/
structure RefreshEnv where
  clusterNodes : Option (List ClusterNode)
  dialOk : String → Bool
  voting : VotingEnv
  now : Nat

/-- Embedding of `State.hasConfigPeerWithIP`. -/
def hasConfigPeerWithIP (configPeers : List (String × String)) (ip : String) : Bool :=
  configPeers.any (fun e => e.2 == ip)

/-- Embedding of `State.peerNameFromIP` (first config entry with the IP). -/
def peerNameFromIP (configPeers : List (String × String)) (ip : String) : Option String :=
  (configPeers.find? (fun e => e.2 == ip)).map (fun e => e.1)

/-- Characters of a string up to (excluding) the first occurrence of the
separator. -/
def charsBefore (sep : Char) : List Char → List Char
  | [] => []
  | c :: rest => if c = sep then [] else c :: charsBefore sep rest

/-- Host part of a gossip address, as computed by
`strings.Split(addr, ":")[0]`: the prefix before the first colon. -/
def gossipHost (addr : String) : String :=
  String.mk (charsBefore ':' addr.data)

/-- Go-map insertion on an association list: replace the value if the key
is present, append otherwise. -/
def mapInsert (m : List (String × PeerState)) (k : String) (v : PeerState) :
    List (String × PeerState) :=
  if m.any (fun e => e.1 == k) then
    m.map (fun e => if e.1 == k then (k, v) else e)
  else
    m ++ [(k, v)]

/-- Whether some peer of the map is marked `lastSeenActive` (the body of
`State.HasActivePeer`). -/
def anyActive (m : List (String × PeerState)) : Bool :=
  m.any (fun e => e.2.lastSeenActive)

/-- Mutable locals of the `Refresh` node loop. -/
structure LoopAcc where
  latest : List (String × PeerState)
  isLeaderlessSample : Bool
  lastActivePeer : PeerState
  activePeerLastSeenAt : Nat
deriving Repr, DecidableEq

/-- One iteration of the per-node loop of `State.Refresh` (state.go lines
94-189).  Returns `none` when the iteration panics dereferencing a nil
gossip address (`*node.Gossip` at line 95); otherwise the updated locals
plus whether the early `break` at line 186 fires. -/
def refreshNode (s : GossipState) (env : RefreshEnv) (node : ClusterNode)
    (acc : LoopAcc) : Option (LoopAcc × Bool) :=
  match node.gossip with
  | none => none
  | some gaddr =>
    let nodeIP := gossipHost gaddr
    if !(hasConfigPeerWithIP s.configPeers nodeIP) then
      some (acc, false)
    else
      match peerNameFromIP s.configPeers nodeIP with
      | none => some (acc, false)
      | some peerName =>
        if !(env.dialOk gaddr) then
          some (acc, false)
        else
          let isActivePeer := node.pubkey == s.activePubkey
          if isActivePeer && !(isNodeActiveAndVoting env.voting node.pubkey) then
            some (acc, false)
          else
            let ps : PeerState :=
              { name := peerName
                ip := nodeIP
                pubkey := node.pubkey
                lastSeenAtUTC := env.now
                lastSeenActive := isActivePeer
                isRecentlyInGossip := s.missingGossipIPs.contains nodeIP }
            let latest := mapInsert acc.latest peerName ps
            let acc' :=
              if ps.lastSeenActive then
                { latest := latest
                  isLeaderlessSample := false
                  lastActivePeer := ps
                  activePeerLastSeenAt := env.now }
              else
                { acc with latest := latest }
            some (acc', s.configPeers.length == latest.length)

/-- The per-node loop of `State.Refresh`: iterate `refreshNode` over the
returned cluster nodes, stopping early when the break fires and
propagating a panic. -/
def refreshLoop (s : GossipState) (env : RefreshEnv) :
    List ClusterNode → LoopAcc → Option LoopAcc
  | [], acc => some acc
  | node :: rest, acc =>
    match refreshNode s env node acc with
    | none => none
    | some (acc', true) => some acc'
    | some (acc', false) => refreshLoop s env rest acc'

/-- Embedding of `State.Refresh`.  `none` models a panic (nil gossip
address in the response); on a `getClusterNodes` error the peer map is
cleared and the timestamp advanced, nothing else. -/
def Refresh (s : GossipState) (env : RefreshEnv) : Option GossipState :=
  match env.clusterNodes with
  | none =>
    some { s with peerStatesByName := [], peerStatesRefreshedAt := env.now }
  | some nodes =>
    match refreshLoop s env nodes ⟨[], true, s.lastActivePeer, s.activePeerLastSeenAt⟩ with
    | none => none
    | some acc =>
      let latestMissing :=
        (s.configPeers.filter (fun e => !(acc.latest.any (fun q => q.1 == e.1)))).map
          (fun e => e.2)
      some { s with
        leaderlessSamplesCount :=
          if acc.isLeaderlessSample then s.leaderlessSamplesCount + 1 else 0
        missingGossipIPs := latestMissing
        peerStatesByName := acc.latest
        peerStatesRefreshedAt := env.now
        lastActivePeer := acc.lastActivePeer
        activePeerLastSeenAt := acc.activePeerLastSeenAt }

/-- Embedding of `State.HasIP`. -/
def HasIP (s : GossipState) (ip : String) : Bool :=
  s.peerStatesByName.any (fun e => e.2.ip == ip)

/-- Embedding of `State.IsRecentlyInGossip`. -/
def IsRecentlyInGossip (s : GossipState) (ip : String) : Bool :=
  s.peerStatesByName.any (fun e => e.2.ip == ip && e.2.isRecentlyInGossip)

/-- Embedding of `State.HasActivePeerInTheLastNSamples` (alias
`LeaderlessSamplesBelowThreshold`). -/
def LeaderlessSamplesBelowThreshold (s : GossipState) (n : Nat) : Bool :=
  decide (s.leaderlessSamplesCount < n)

/-! ## HA decision loop (ha manager, ensureHAState) -/

/-- Environment of one tick of `ensureHAState`: the gossip state as it
stands after the preamble `Refresh`, the results of the two
leaderless-threshold checks (their Bool results are abstracted because the
sources carry both a duration-based and a sample-based variant of the
predicate), and the local `getHealth` / `getIdentity` results (`none` = RPC
error). -/
structure TickEnv where
  selfIP : String
  snap1 : GossipState
  hasActiveRecent1 : Bool
  health : Option String
  identity : Option String
  activePubkey : String
  hasActiveRecent2 : Bool

/-- The mutually exclusive exits of one `ensureHAState` tick. -/
inductive TickOutcome where
  | passiveNotInGossip
  | recentlyInGossip
  | activePeerOk
  | passiveNotInGossipAgain
  | unhealthyAbort
  | passiveAlreadyActive
  | raceLost
  | becomeActive
deriving Repr, DecidableEq

/-- Embedding of `Manager.isSelfHealthy`: `GetHealth` must return "ok"; an
RPC error yields false. -/
def isSelfHealthy (e : TickEnv) : Bool :=
  e.health == some "ok"

/-- Embedding of `Manager.isSelfActive`: `GetIdentity` must return the
shared-active pubkey; an RPC error yields false. -/
def isSelfActiveProbe (e : TickEnv) : Bool :=
  e.identity == some e.activePubkey

/-- Embedding of the decision chain of `Manager.ensureHAState`, reporting
which exit the tick takes.  `becomeActive` is the exit that calls
`ensureActive` (failoverStatus `becoming_active`). -/
def ensureHAState (e : TickEnv) : TickOutcome :=
  if HasIP e.snap1 e.selfIP = false then .passiveNotInGossip
  else if IsRecentlyInGossip e.snap1 e.selfIP = true then .recentlyInGossip
  else if e.hasActiveRecent1 = true then .activePeerOk
  else if HasIP e.snap1 e.selfIP = false then .passiveNotInGossipAgain
  else if isSelfHealthy e = false then .unhealthyAbort
  else if isSelfActiveProbe e = true then .passiveAlreadyActive
  else if e.hasActiveRecent2 = true then .raceLost
  else .becomeActive

/-! ## Ranked takeover delay (ha manager, delayTakeover / NewManager) -/

/-- Embedding of Go's `rand.Intn`: for `n = 0` the call panics (`none`);
otherwise it returns a value in `[0, n)`, here derived from the draw
supplied by the environment. -/
def randIntn (draw n : Nat) : Option Nat :=
  if n = 0 then none else some (draw % n)

/-- Modelled from the spec: `Peers.GetRankedIPs` is absent from the
sources (only its call sites appear); the spec fixes it as the stable
lexicographic ranking of all peers' IPs (self included, since self is
inserted into the peers map at initialization). -/
def getRankedIPs (ips : List String) : List String :=
  ips.insertionSort (fun a b => a ≤ b)

/-- Embedding of the `peerCount` field set in `NewManager`:
`len(opts.Cfg.Failover.Peers)` is captured at construction time, before
`initialize` inserts self into the peers map, so it counts the configured
remote peers only. -/
def newManagerPeerCount (remotePeerIPs : List String) : Nat :=
  remotePeerIPs.length

/-- The peers map after `initialize` has inserted self. -/
def peersAfterInit (selfIP : String) (remotePeerIPs : List String) : List String :=
  selfIP :: remotePeerIPs

/-- What one call of `delayTakeover` does. -/
inductive DelayResult where
  | skipped
  | slept (seconds : Nat)
  | panicked
deriving Repr, DecidableEq

/-- Embedding of `Manager.delayTakeover`: return immediately when
`peerCount <= 1`; otherwise sleep rank seconds (1-based position of selfIP
in the ranked IPs, 0 when absent) plus `rand.Intn(takeoverJitterSeconds)`
seconds. -/
def delayTakeover (peerCount : Nat) (rankedIPs : List String) (selfIP : String)
    (takeoverJitterSeconds : Nat) (draw : Nat) : DelayResult :=
  if peerCount ≤ 1 then
    .skipped
  else
    let delaySeconds :=
      match rankedIPs.findIdx? (fun ip => ip == selfIP) with
      | some i => i + 1
      | none => 0
    match randIntn draw takeoverJitterSeconds with
    | none => .panicked
    | some jitter => .slept (delaySeconds + jitter)

/-! ## Failover configuration validation -/

/-- The failover section of the configuration file. -/
structure FailoverConfig where
  dryRun : Bool
  pollIntervalMillis : Nat
  leaderlessSamplesThreshold : Nat
  takeoverJitterSeconds : Nat
  activeCommand : String
  passiveCommand : String
  peerIPs : List String
deriving Repr, DecidableEq

/-- Split a character list on a separator character. -/
def splitChars (sep : Char) : List Char → List (List Char)
  | [] => [[]]
  | c :: rest =>
    let r := splitChars sep rest
    if c = sep then [] :: r
    else
      match r with
      | [] => [[c]]
      | p :: ps => (c :: p) :: ps

/-- Parse a non-empty all-digit character list as a decimal number. -/
def parseDecimal (cs : List Char) : Option Nat :=
  if cs.isEmpty then none
  else if cs.all Char.isDigit then
    some (cs.foldl (fun n c => n * 10 + (c.toNat - 48)) 0)
  else none

/-- Dotted-quad shape check standing for the IPv4 validation the config
performs on peer IPs. -/
def isValidIPv4 (s : String) : Bool :=
  let parts := splitChars '.' s.data
  parts.length == 4 &&
    parts.all (fun p =>
      match parseDecimal p with
      | some n => decide (n ≤ 255)
      | none => false)

/-- Modelled from the spec: `Failover.Validate` is absent from the sources
(only its test appears).  Per the spec (§6, §7) and the expectations of
`TestFailover_Validate` it requires a positive poll interval, a positive
leaderless-samples threshold, non-empty active and passive commands, and a
non-empty peer set with unique valid IPv4 addresses; it imposes no
constraint on `takeover_jitter_seconds`. -/
def failoverValidate (c : FailoverConfig) : Bool :=
  decide (0 < c.pollIntervalMillis) &&
  decide (0 < c.leaderlessSamplesThreshold) &&
  !(c.activeCommand == "") &&
  !(c.passiveCommand == "") &&
  !c.peerIPs.isEmpty &&
  c.peerIPs.all isValidIPv4 &&
  decide c.peerIPs.Nodup

/-! ## Concrete fixtures used by witnesses and counterexamples -/

/-- Vote accounts listing the same node pubkey as both current and
delinquent. -/
def overlapVoteAccounts : VoteAccounts :=
  { current := ["A"], delinquent := ["A"] }

/-- Voting environment with no RPC errors, the overlap vote accounts, and
a balance above the rent-exempt minimum. -/
def overlapVotingEnv : VotingEnv :=
  { slot := some 1
    voteAccounts := some overlapVoteAccounts
    balance := fun _ => some 2000000 }

/-- Healthy voting environment: the active node is current and not
delinquent. -/
def healthyVotingEnv : VotingEnv :=
  { slot := some 1
    voteAccounts := some { current := ["ACT"], delinquent := [] }
    balance := fun _ => some 0 }

/-- Gossip state with two configured peers and a non-zero leaderless
counter. -/
def twoPeerState : GossipState :=
  { peerStatesRefreshedAt := 0
    peerStatesByName := []
    configPeers := [("p1", "10.0.0.1"), ("p2", "10.0.0.99")]
    activePubkey := "ACT"
    selfIP := "10.0.0.99"
    missingGossipIPs := []
    lastActivePeer := {}
    activePeerLastSeenAt := 0
    leaderlessSamplesCount := 5 }

/-- Refresh environment in which gossip returns two nodes on the same host
IP: first the shared-active identity, then a passive identity.  The second
entry overwrites the first in the per-name peer map. -/
def overwriteRefreshEnv : RefreshEnv :=
  { clusterNodes := some [⟨"ACT", some "10.0.0.1:8001"⟩, ⟨"PAS", some "10.0.0.1:8002"⟩]
    dialOk := fun _ => true
    voting := healthyVotingEnv
    now := 10 }

/-- Gossip state with a single configured peer. -/
def onePeerState : GossipState :=
  { peerStatesRefreshedAt := 0
    peerStatesByName := []
    configPeers := [("p1", "10.0.0.1")]
    activePubkey := "ACT"
    selfIP := "10.0.0.2"
    missingGossipIPs := []
    lastActivePeer := {}
    activePeerLastSeenAt := 0
    leaderlessSamplesCount := 4 }

/-- Refresh environment returning a single live active node. -/
def activeRefreshEnv : RefreshEnv :=
  { clusterNodes := some [⟨"ACT", some "10.0.0.1:8001"⟩]
    dialOk := fun _ => true
    voting := healthyVotingEnv
    now := 10 }

/-- The state `Refresh` produces from `twoPeerState` under
`overwriteRefreshEnv`: the passive entry has overwritten the active one,
yet the counter was reset. -/
def overwriteRefreshResult : GossipState :=
  { peerStatesRefreshedAt := 10
    peerStatesByName := [("p1",
      { name := "p1", ip := "10.0.0.1", pubkey := "PAS", lastSeenAtUTC := 10,
        lastSeenActive := false, isRecentlyInGossip := false })]
    configPeers := [("p1", "10.0.0.1"), ("p2", "10.0.0.99")]
    activePubkey := "ACT"
    selfIP := "10.0.0.99"
    missingGossipIPs := ["10.0.0.99"]
    lastActivePeer :=
      { name := "p1", ip := "10.0.0.1", pubkey := "ACT", lastSeenAtUTC := 10,
        lastSeenActive := true, isRecentlyInGossip := false }
    activePeerLastSeenAt := 10
    leaderlessSamplesCount := 0 }

/-- The state `Refresh` produces from `onePeerState` under
`activeRefreshEnv`: the active peer is recorded and the counter reset. -/
def activeRefreshResult : GossipState :=
  { peerStatesRefreshedAt := 10
    peerStatesByName := [("p1",
      { name := "p1", ip := "10.0.0.1", pubkey := "ACT", lastSeenAtUTC := 10,
        lastSeenActive := true, isRecentlyInGossip := false })]
    configPeers := [("p1", "10.0.0.1")]
    activePubkey := "ACT"
    selfIP := "10.0.0.2"
    missingGossipIPs := []
    lastActivePeer :=
      { name := "p1", ip := "10.0.0.1", pubkey := "ACT", lastSeenAtUTC := 10,
        lastSeenActive := true, isRecentlyInGossip := false }
    activePeerLastSeenAt := 10
    leaderlessSamplesCount := 0 }

/-- Refresh environment in which `getClusterNodes` fails. -/
def failingRefreshEnv : RefreshEnv :=
  { clusterNodes := none
    dialOk := fun _ => true
    voting := healthyVotingEnv
    now := 7 }

/-- Refresh environment whose response contains a node with a nil gossip
address. -/
def nilGossipRefreshEnv : RefreshEnv :=
  { clusterNodes := some [⟨"X", none⟩]
    dialOk := fun _ => true
    voting := healthyVotingEnv
    now := 3 }

/-- Tick environment of a healthy passive node that is present in gossip
while the cluster is leaderless. -/
def promotableTickEnv : TickEnv :=
  { selfIP := "10.0.0.1"
    snap1 := { twoPeerState with
      peerStatesByName := [("me", { name := "me", ip := "10.0.0.1" })] }
    hasActiveRecent1 := false
    health := some "ok"
    identity := some "PASS"
    activePubkey := "ACT"
    hasActiveRecent2 := false }

/-- Failover configuration with `takeover_jitter_seconds = 0` that is
otherwise fully valid. -/
def jitterZeroConfig : FailoverConfig :=
  { dryRun := false
    pollIntervalMillis := 5000
    leaderlessSamplesThreshold := 3
    takeoverJitterSeconds := 0
    activeCommand := "systemctl start solana"
    passiveCommand := "systemctl stop solana"
    peerIPs := ["10.0.0.2"] }

/-! ## Helper lemmas -/

/-- Running the pre-hooks in dry-run mode invokes every hook, spawns no
subprocess, and succeeds. -/
theorem runPre_dryRun (hooks : List HookSpec) :
    runPre true hooks = ⟨hooks.length, 0, true⟩ := by
  induction hooks with
  | nil => rfl
  | cons h t ih => simp [runPre, hookRun, ih]

/-- Running the post-hooks in dry-run mode invokes every hook and spawns
no subprocess. -/
theorem runPost_dryRun (hooks : List HookSpec) :
    runPost true hooks = (hooks.length, 0) := by
  induction hooks with
  | nil => rfl
  | cons h t ih => simp [runPost, hookRun, ih]

/-! ## C7 -/

/-- C7: through the RPC gateway the attempt order over endpoint URLs is all
URLs other than `lastSuccessfulURL` in declared order followed by
`lastSuccessfulURL` last; with no recorded success (empty
`lastSuccessfulURL`) or at most one configured URL, the attempt order is
the declared order. -/
theorem getURLsToTry_order (urls : List String) (lastSuccessfulURL : String) :
    ((lastSuccessfulURL = "" ∨ urls.length ≤ 1) →
      getURLsToTry urls lastSuccessfulURL = urls) ∧
    (lastSuccessfulURL ≠ "" → 2 ≤ urls.length →
      getURLsToTry urls lastSuccessfulURL =
        urls.filter (fun url => url ≠ lastSuccessfulURL) ++ [lastSuccessfulURL]) := by
  constructor
  · intro h
    unfold getURLsToTry
    exact if_pos h.symm
  · intro h1 h2
    unfold getURLsToTry
    rw [if_neg]
    push_neg
    exact ⟨by omega, h1⟩

/-- Witness for C7 at concrete inputs: no recorded success keeps the
declared order, and a recorded success is moved to the end. -/
theorem getURLsToTry_order_witness :
    getURLsToTry ["u1", "u2", "u3"] "" = ["u1", "u2", "u3"] ∧
    getURLsToTry ["u1", "u2", "u3"] "u2" = ["u1", "u3", "u2"] := by
  constructor
  · exact (getURLsToTry_order ["u1", "u2", "u3"] "").1 (Or.inl rfl)
  · have h := (getURLsToTry_order ["u1", "u2", "u3"] "u2").2 (by decide) (by decide)
    rw [h]
    decide

/-! ## C8 -/

/-- C8: with the dry-run flag set no subprocess is ever spawned — the
command runner, the hook runner and the role-command runner all return
success with zero spawns, and both the promotion and the demotion protocol
run with zero spawns on every path. -/
theorem dryRun_no_subprocess (e : Bool) (hooks : List HookSpec) (role : RoleSpec) :
    hookRun true e = (0, true) ∧
    commandRun true e = (0, true) ∧
    roleRunCommand true e = (0, true) ∧
    runPre true hooks = ⟨hooks.length, 0, true⟩ ∧
    runPost true hooks = (hooks.length, 0) ∧
    (ensureActiveModel true role).spawns = 0 ∧
    (ensurePassiveModel true role).spawns = 0 := by
  refine ⟨rfl, rfl, rfl, runPre_dryRun hooks, runPost_dryRun hooks, ?_, ?_⟩
  · simp [ensureActiveModel, runPre_dryRun, roleRunCommand, runPost_dryRun]
  · simp [ensurePassiveModel, runPre_dryRun, roleRunCommand, runPost_dryRun]

/-! ## C3 -/

/-- C3: a tick enters the promotion protocol (`becomeActive`, i.e. the
`ensureActive` call that sets failoverStatus `becoming_active`) only if the
self-IP is present in the refreshed gossip snapshot and the local health
probe reports healthy; a node absent from gossip or unhealthy (including on
local-RPC error, which makes the probe report unhealthy) never enters it. -/
theorem ensureHAState_promotion_requires_gossip_and_health (e : TickEnv)
    (h : ensureHAState e = TickOutcome.becomeActive) :
    HasIP e.snap1 e.selfIP = true ∧ isSelfHealthy e = true := by
  unfold ensureHAState at h
  split_ifs at h
  all_goals simp_all

/-- Witness for C3: a concrete promotable tick environment reaches
`becomeActive`, and the theorem yields its gossip presence and health. -/
theorem ensureHAState_promotion_requires_gossip_and_health_witness :
    HasIP promotableTickEnv.snap1 promotableTickEnv.selfIP = true ∧
    isSelfHealthy promotableTickEnv = true :=
  ensureHAState_promotion_requires_gossip_and_health promotableTickEnv (by decide)

/-! ## C5 -/

/-- C5: when `getClusterNodes` fails, `Refresh` clears the peer map,
advances the refreshedAt timestamp to the current clock reading, and leaves
everything else — in particular `leaderlessSamplesCount` and the missing
list — unchanged, returning before any liveness or voting check (the result
does not depend on the dial or voting oracles). -/
theorem refresh_cluster_nodes_failure (s : GossipState) (env : RefreshEnv)
    (h : env.clusterNodes = none) :
    Refresh s env =
      some { s with peerStatesByName := [], peerStatesRefreshedAt := env.now } := by
  unfold Refresh
  rw [h]

/-- Witness for C5 at a concrete state and failing environment. -/
theorem refresh_cluster_nodes_failure_witness :
    Refresh twoPeerState failingRefreshEnv =
      some { twoPeerState with
        peerStatesByName := [], peerStatesRefreshedAt := failingRefreshEnv.now } :=
  refresh_cluster_nodes_failure twoPeerState failingRefreshEnv rfl

/-! ## C10 -/

/-- C10: configuration validation accepts `takeover_jitter_seconds = 0`,
yet with two or more configured peers the ranked-delay step then panics in
`rand.Intn(0)`; the step is total whenever the jitter window is at least
one second. -/
theorem takeover_jitter_zero_panics :
    (failoverValidate jitterZeroConfig = true ∧
      jitterZeroConfig.takeoverJitterSeconds = 0) ∧
    (∀ (peerCount : Nat) (rankedIPs : List String) (selfIP : String) (draw : Nat),
      2 ≤ peerCount →
      delayTakeover peerCount rankedIPs selfIP 0 draw = DelayResult.panicked) ∧
    (∀ (peerCount : Nat) (rankedIPs : List String) (selfIP : String)
        (jitter draw : Nat),
      1 ≤ jitter →
      delayTakeover peerCount rankedIPs selfIP jitter draw ≠ DelayResult.panicked) := by
  refine ⟨⟨by decide, rfl⟩, ?_, ?_⟩
  · intro peerCount rankedIPs selfIP draw h
    unfold delayTakeover
    rw [if_neg (by omega)]
    rfl
  · intro peerCount rankedIPs selfIP jitter draw h
    unfold delayTakeover
    by_cases hpc : peerCount ≤ 1
    · rw [if_pos hpc]
      exact fun hx => DelayResult.noConfusion hx
    · rw [if_neg hpc]
      have hr : randIntn draw jitter = some (draw % jitter) := by
        unfold randIntn
        rw [if_neg (by omega)]
      simp only [hr]
      exact fun hx => DelayResult.noConfusion hx

/-- Witness for C10: with two configured peers and a zero jitter window the
ranked delay panics at concrete inputs. -/
theorem takeover_jitter_zero_panics_witness :
    delayTakeover 2 ["10.0.0.1", "10.0.0.2"] "10.0.0.1" 0 5 = DelayResult.panicked :=
  takeover_jitter_zero_panics.2.1 2 ["10.0.0.1", "10.0.0.2"] "10.0.0.1" 5 (by decide)

/-! ## C4 -/

/-- C4 counterexample: with one configured remote peer, two peers (self
included) are known after initialization, yet `delayTakeover` skips the
delay because `peerCount` — captured in `NewManager` before self-insertion
— is 1.  The claim requires the delay to be skipped only when exactly one
peer is known. -/
theorem delayTakeover_skip_two_peers_counterexample :
    delayTakeover (newManagerPeerCount ["10.0.0.2"])
        (getRankedIPs (peersAfterInit "10.0.0.1" ["10.0.0.2"])) "10.0.0.1" 3 0 =
      DelayResult.skipped ∧
    (peersAfterInit "10.0.0.1" ["10.0.0.2"]).length = 2 := by
  constructor
  · rfl
  · rfl

/-- C4 amended: the delay is skipped exactly when at most one remote peer
was configured (`peerCount`, captured before self-insertion, is at most 1);
otherwise, with a jitter window of at least one second, the protocol sleeps
rank + jitter seconds where rank is the 1-based position of selfIP in the
deterministic ranking and jitter lies in `[0, takeoverJitterSeconds)`. -/
theorem delayTakeover_rank_jitter_amended (peerCount : Nat)
    (rankedIPs : List String) (selfIP : String) (jitter draw i : Nat) :
    (delayTakeover peerCount rankedIPs selfIP jitter draw = DelayResult.skipped ↔
      peerCount ≤ 1) ∧
    (2 ≤ peerCount → 1 ≤ jitter →
      rankedIPs.findIdx? (fun ip => ip == selfIP) = some i →
      delayTakeover peerCount rankedIPs selfIP jitter draw =
        DelayResult.slept (i + 1 + draw % jitter) ∧ draw % jitter < jitter) := by
  constructor
  · constructor
    · intro h
      by_contra hpc
      unfold delayTakeover at h
      rw [if_neg hpc] at h
      rcases hr : randIntn draw jitter with _ | j
      · simp only [hr] at h
        exact DelayResult.noConfusion h
      · simp only [hr] at h
        exact DelayResult.noConfusion h
    · intro h
      unfold delayTakeover
      rw [if_pos h]
  · intro h2 hj hi
    unfold delayTakeover
    rw [if_neg (by omega)]
    have hr : randIntn draw jitter = some (draw % jitter) := by
      unfold randIntn
      rw [if_neg (by omega)]
    simp only [hi, hr]
    exact ⟨by trivial, Nat.mod_lt _ (by omega)⟩

/-- Witness for C4's amended claim: three remote peers configured, self
ranked second, jitter window 3, draw 7 gives a sleep of rank 2 plus
jitter 1. -/
theorem delayTakeover_rank_jitter_amended_witness :
    delayTakeover 3 ["10.0.0.1", "10.0.0.2", "10.0.0.3"] "10.0.0.2" 3 7 =
      DelayResult.slept (1 + 1 + 7 % 3) ∧ 7 % 3 < 3 :=
  (delayTakeover_rank_jitter_amended 3 ["10.0.0.1", "10.0.0.2", "10.0.0.3"]
    "10.0.0.2" 3 7 1).2 (by decide) (by decide) (by decide)

/-! ## C1 -/

/-- C1 counterexample: a node listed in both the current and the
delinquent vote accounts, with balance above the rent-exempt minimum and no
RPC error, is classified as NOT voting even though it appears in the
current vote accounts — the delinquency branch takes precedence, refuting
the claim's disjunct that presence in the current list suffices. -/
theorem voting_current_overridden_by_delinquency_counterexample :
    overlapVotingEnv.slot = some 1 ∧
    overlapVotingEnv.voteAccounts = some overlapVoteAccounts ∧
    overlapVoteAccounts.current.contains "A" = true ∧
    overlapVotingEnv.balance "A" = some 2000000 ∧
    rentExemptMinimum < 2000000 ∧
    isNodeActiveAndVoting overlapVotingEnv "A" = false := by
  refine ⟨rfl, rfl, by decide, rfl, by decide, by decide⟩

/-- C1 amended: the voting check classifies the node as voting iff getSlot
or getVoteAccounts failed, or the node is in the delinquent list with a
failing getBalance or a balance at most the rent-exempt minimum (890880,
boundary included), or the node is not in the delinquent list and is in
the current list.  Delinquency takes precedence over presence in the
current list; absence from both lists yields NOT voting. -/
theorem isNodeActiveAndVoting_classification (env : VotingEnv) (pk : String) :
    isNodeActiveAndVoting env pk = true ↔
      env.slot = none ∨ env.voteAccounts = none ∨
      ∃ va, env.voteAccounts = some va ∧
        ((pk ∈ va.delinquent ∧
            (env.balance pk = none ∨
              ∃ b, env.balance pk = some b ∧ b ≤ rentExemptMinimum)) ∨
          (pk ∉ va.delinquent ∧ pk ∈ va.current)) := by
  rcases hs : env.slot with _ | slot
  · simp [isNodeActiveAndVoting, hs]
  rcases hv : env.voteAccounts with _ | va
  · simp [isNodeActiveAndVoting, hs, hv]
  rcases hf : va.delinquent.find? (fun d => d == pk) with _ | d
  · have hnd : pk ∉ va.delinquent := by
      intro hmem
      have := List.find?_eq_none.mp hf pk hmem
      simp at this
    simp [isNodeActiveAndVoting, hs, hv, hf, hnd]
  · have hd : d = pk := by
      have := List.find?_some hf
      simpa using this
    rw [hd] at hf
    have hmem : pk ∈ va.delinquent := List.mem_of_find?_eq_some hf
    rcases hb : env.balance pk with _ | b
    · simp [isNodeActiveAndVoting, hs, hv, hf, hb, hmem]
    · simp [isNodeActiveAndVoting, hs, hv, hf, hb, hmem]

/-! ## C6 -/

/-- A succeeding hook lets `runPre` continue with the rest. -/
theorem runPre_cons_ok (h : HookSpec) (rest : List HookSpec)
    (hok : h.execOk = true) :
    runPre false (h :: rest) =
      ⟨(runPre false rest).invoked + 1, 1 + (runPre false rest).spawns,
        (runPre false rest).ok⟩ := by
  simp [runPre, hookRun, commandRun, hok]

/-- A failing hook with `mustSucceed` stops `runPre` immediately with an
error. -/
theorem runPre_cons_fail_must (h : HookSpec) (rest : List HookSpec)
    (hex : h.execOk = false) (hm : h.mustSucceed = true) :
    runPre false (h :: rest) = ⟨1, 1, false⟩ := by
  simp [runPre, hookRun, commandRun, hex, hm]

/-- A failing hook without `mustSucceed` is logged and `runPre`
continues. -/
theorem runPre_cons_fail_nomust (h : HookSpec) (rest : List HookSpec)
    (hex : h.execOk = false) (hm : h.mustSucceed = false) :
    runPre false (h :: rest) =
      ⟨(runPre false rest).invoked + 1, 1 + (runPre false rest).spawns,
        (runPre false rest).ok⟩ := by
  simp [runPre, hookRun, commandRun, hex, hm]

/-- When the first `mustSucceed` failure sits after hooks that either
succeed or are not `mustSucceed`, `runPre` fails and invokes exactly the
hooks up to and including the failing one. -/
theorem runPre_abort_of_mustSucceed_failure (pre₁ : List HookSpec)
    (h : HookSpec) (pre₂ : List HookSpec)
    (h₁ : ∀ g ∈ pre₁, g.execOk = true ∨ g.mustSucceed = false)
    (hex : h.execOk = false) (hm : h.mustSucceed = true) :
    (runPre false (pre₁ ++ h :: pre₂)).ok = false ∧
    (runPre false (pre₁ ++ h :: pre₂)).invoked = pre₁.length + 1 := by
  induction pre₁ with
  | nil =>
    simp [runPre_cons_fail_must h pre₂ hex hm]
  | cons g t ih =>
    have ht : ∀ x ∈ t, x.execOk = true ∨ x.mustSucceed = false :=
      fun x hx => h₁ x (List.mem_cons_of_mem _ hx)
    have ih' := ih ht
    rcases h₁ g (List.mem_cons_self _ _) with hg | hg
    · rw [List.cons_append, runPre_cons_ok g _ hg]
      simp [ih'.1, ih'.2]
    · by_cases hge : g.execOk = true
      · rw [List.cons_append, runPre_cons_ok g _ hge]
        simp [ih'.1, ih'.2]
      · have hge' : g.execOk = false := by
          revert hge
          cases g.execOk <;> simp
        rw [List.cons_append, runPre_cons_fail_nomust g _ hge' hg]
        simp [ih'.1, ih'.2]

/-- When no `mustSucceed` hook fails, `runPre` succeeds and invokes every
hook. -/
theorem runPre_continues_of_no_mustSucceed_failure (hooks : List HookSpec)
    (h₁ : ∀ g ∈ hooks, g.mustSucceed = true → g.execOk = true) :
    (runPre false hooks).ok = true ∧ (runPre false hooks).invoked = hooks.length := by
  induction hooks with
  | nil => exact ⟨rfl, rfl⟩
  | cons g t ih =>
    have ht : ∀ x ∈ t, x.mustSucceed = true → x.execOk = true :=
      fun x hx => h₁ x (List.mem_cons_of_mem _ hx)
    have ih' := ih ht
    by_cases hge : g.execOk = true
    · rw [runPre_cons_ok g t hge]
      simp [ih'.1, ih'.2]
    · have hge' : g.execOk = false := by
        revert hge
        cases g.execOk <;> simp
      have hgm : g.mustSucceed = false := by
        rcases hm : g.mustSucceed
        · rfl
        · have := h₁ g (List.mem_cons_self _ _) hm
          rw [this] at hge'
          cases hge'
      rw [runPre_cons_fail_nomust g t hge' hgm]
      simp [ih'.1, ih'.2]

/-- C6: in a (non-dry-run) promotion or demotion protocol run, a failing
pre-hook with `mustSucceed = true` (preceded only by hooks that succeed or
are not `mustSucceed`) aborts: later pre-hooks are not invoked, the role
command is not executed, and the post-hooks are not executed; whereas when
every failing pre-hook has `mustSucceed = false`, the run continues through
all hooks and succeeds. -/
theorem runPre_mustSucceed_aborts_protocol :
    (∀ (pre₁ : List HookSpec) (h : HookSpec) (pre₂ : List HookSpec)
        (cmdOk : Bool) (post : List HookSpec),
      (∀ g ∈ pre₁, g.execOk = true ∨ g.mustSucceed = false) →
      h.execOk = false → h.mustSucceed = true →
      (runPre false (pre₁ ++ h :: pre₂)).ok = false ∧
      (runPre false (pre₁ ++ h :: pre₂)).invoked = pre₁.length + 1 ∧
      (ensureActiveModel false ⟨pre₁ ++ h :: pre₂, cmdOk, post⟩).commandInvoked = false ∧
      (ensureActiveModel false ⟨pre₁ ++ h :: pre₂, cmdOk, post⟩).postInvoked = 0 ∧
      (ensurePassiveModel false ⟨pre₁ ++ h :: pre₂, cmdOk, post⟩).commandInvoked = false ∧
      (ensurePassiveModel false ⟨pre₁ ++ h :: pre₂, cmdOk, post⟩).postInvoked = 0) ∧
    (∀ hooks : List HookSpec,
      (∀ g ∈ hooks, g.mustSucceed = true → g.execOk = true) →
      (runPre false hooks).ok = true ∧
      (runPre false hooks).invoked = hooks.length) := by
  constructor
  · intro pre₁ h pre₂ cmdOk post h₁ hex hm
    obtain ⟨hok, hinv⟩ := runPre_abort_of_mustSucceed_failure pre₁ h pre₂ h₁ hex hm
    refine ⟨hok, hinv, ?_, ?_, ?_, ?_⟩ <;>
      simp [ensureActiveModel, ensurePassiveModel, hok]
  · exact runPre_continues_of_no_mustSucceed_failure

/-- Witness for C6: one succeeding non-mustSucceed hook, then a failing
mustSucceed hook, then one more hook; the run fails after invoking two
hooks, and neither the role command nor the post-hooks execute. -/
theorem runPre_mustSucceed_aborts_protocol_witness :
    (runPre false [⟨false, true⟩, ⟨true, false⟩, ⟨true, true⟩]).ok = false ∧
    (runPre false [⟨false, true⟩, ⟨true, false⟩, ⟨true, true⟩]).invoked = 1 + 1 ∧
    (ensureActiveModel false
        ⟨[⟨false, true⟩, ⟨true, false⟩, ⟨true, true⟩], true,
          [⟨false, true⟩]⟩).commandInvoked = false ∧
    (ensureActiveModel false
        ⟨[⟨false, true⟩, ⟨true, false⟩, ⟨true, true⟩], true,
          [⟨false, true⟩]⟩).postInvoked = 0 ∧
    (ensurePassiveModel false
        ⟨[⟨false, true⟩, ⟨true, false⟩, ⟨true, true⟩], true,
          [⟨false, true⟩]⟩).commandInvoked = false ∧
    (ensurePassiveModel false
        ⟨[⟨false, true⟩, ⟨true, false⟩, ⟨true, true⟩], true,
          [⟨false, true⟩]⟩).postInvoked = 0 :=
  runPre_mustSucceed_aborts_protocol.1 [⟨false, true⟩] ⟨true, false⟩ [⟨true, true⟩]
    true [⟨false, true⟩] (by decide) rfl rfl

/-! ## C9 -/

/-- An iteration over a node that carries a gossip address never panics. -/
theorem refreshNode_isSome (s : GossipState) (env : RefreshEnv)
    (node : ClusterNode) (acc : LoopAcc) (hg : node.gossip.isSome = true) :
    (refreshNode s env node acc).isSome = true := by
  obtain ⟨gaddr, hga⟩ := Option.isSome_iff_exists.mp hg
  simp only [refreshNode, hga]
  repeat' split
  all_goals rfl

/-- The refresh loop never panics when every returned node carries a
gossip address. -/
theorem refreshLoop_isSome (s : GossipState) (env : RefreshEnv) :
    ∀ (nodes : List ClusterNode) (acc : LoopAcc),
      (∀ n ∈ nodes, n.gossip.isSome = true) →
      (refreshLoop s env nodes acc).isSome = true := by
  intro nodes
  induction nodes with
  | nil =>
    intro acc _
    rfl
  | cons node rest ih =>
    intro acc hg
    have hnode := hg node (List.mem_cons_self _ _)
    have hrest : ∀ n ∈ rest, n.gossip.isSome = true :=
      fun n hn => hg n (List.mem_cons_of_mem _ hn)
    have hstep := refreshNode_isSome s env node acc hnode
    obtain ⟨⟨acc', brk⟩, hsome⟩ := Option.isSome_iff_exists.mp hstep
    cases brk
    · simp only [refreshLoop, hsome]
      exact ih acc' hrest
    · simp only [refreshLoop, hsome]
      rfl

/-- C9: `Refresh` dereferences each returned node's gossip address without
a nil check — a successful `getClusterNodes` response containing a node
with an absent gossip address makes `Refresh` panic (concretely witnessed
below); `Refresh` is total whenever every returned node carries a gossip
address. -/
theorem refresh_nil_gossip_panic :
    (∀ (s : GossipState) (env : RefreshEnv) (nodes : List ClusterNode),
      env.clusterNodes = some nodes →
      (∀ n ∈ nodes, n.gossip.isSome = true) →
      (Refresh s env).isSome = true) ∧
    Refresh twoPeerState nilGossipRefreshEnv = none := by
  constructor
  · intro s env nodes hc hg
    unfold Refresh
    rw [hc]
    have h := refreshLoop_isSome s env nodes
      ⟨[], true, s.lastActivePeer, s.activePeerLastSeenAt⟩ hg
    obtain ⟨acc, hacc⟩ := Option.isSome_iff_exists.mp h
    simp [hacc]
  · rfl

/-- Witness for C9's totality direction: a concrete state and a response
whose single node carries a gossip address refresh successfully. -/
theorem refresh_nil_gossip_panic_witness :
    (Refresh onePeerState activeRefreshEnv).isSome = true :=
  refresh_nil_gossip_panic.1 onePeerState activeRefreshEnv
    [⟨"ACT", some "10.0.0.1:8001"⟩] rfl (by decide)

/-! ## C2 -/

/-- Inserting a non-active peer state into a map with no active entry
leaves the map without active entries. -/
theorem anyActive_mapInsert_false (m : List (String × PeerState)) (k : String)
    (v : PeerState) (hm : anyActive m = false) (hv : v.lastSeenActive = false) :
    anyActive (mapInsert m k v) = false := by
  unfold mapInsert
  split
  · simp only [anyActive, List.any_map, List.any_eq_false, Function.comp] at hm ⊢
    intro e he
    by_cases hek : e.1 == k
    · simp [hek, hv]
    · simp only [hek]
      exact hm e he
  · rw [anyActive, List.any_append]
    rw [anyActive] at hm
    simp [hm, hv]

/-- One loop iteration preserves the invariant that a still-leaderless
sample has no active entry in the accumulated map. -/
theorem refreshNode_leaderless_inv (s : GossipState) (env : RefreshEnv)
    (node : ClusterNode) (acc acc' : LoopAcc) (brk : Bool)
    (h : refreshNode s env node acc = some (acc', brk))
    (hinv : acc.isLeaderlessSample = true → anyActive acc.latest = false) :
    acc'.isLeaderlessSample = true → anyActive acc'.latest = false := by
  rcases hga : node.gossip with _ | gaddr
  · simp only [refreshNode, hga] at h
    exact Option.noConfusion h
  · simp only [refreshNode, hga] at h
    split at h
    · obtain ⟨h1, _⟩ := Prod.mk.injEq .. ▸ Option.some.inj h
      subst h1
      exact hinv
    · split at h
      · obtain ⟨h1, _⟩ := Prod.mk.injEq .. ▸ Option.some.inj h
        subst h1
        exact hinv
      · split at h
        · obtain ⟨h1, _⟩ := Prod.mk.injEq .. ▸ Option.some.inj h
          subst h1
          exact hinv
        · split at h
          · obtain ⟨h1, _⟩ := Prod.mk.injEq .. ▸ Option.some.inj h
            subst h1
            exact hinv
          · split at h
            · -- active peer inserted: the sample is no longer leaderless
              obtain ⟨h1, _⟩ := Prod.mk.injEq .. ▸ Option.some.inj h
              subst h1
              intro hflag
              cases hflag
            · -- inactive peer inserted: flag unchanged, map stays inactive
              rename_i hsplit1 hsplit2 hsplit3 hsplit4 hactive
              obtain ⟨h1, _⟩ := Prod.mk.injEq .. ▸ Option.some.inj h
              subst h1
              intro hflag
              have hv : Bool.not (node.pubkey == s.activePubkey) = true := by
                cases hpk : (node.pubkey == s.activePubkey)
                · rfl
                · exact absurd hpk hactive
              have hmfalse := hinv hflag
              exact anyActive_mapInsert_false _ _ _ hmfalse (by
                simpa using hv)

/-- The refresh loop preserves the leaderless invariant. -/
theorem refreshLoop_leaderless_inv (s : GossipState) (env : RefreshEnv) :
    ∀ (nodes : List ClusterNode) (acc acc' : LoopAcc),
      refreshLoop s env nodes acc = some acc' →
      (acc.isLeaderlessSample = true → anyActive acc.latest = false) →
      (acc'.isLeaderlessSample = true → anyActive acc'.latest = false) := by
  intro nodes
  induction nodes with
  | nil =>
    intro acc acc' h hinv
    obtain rfl := Option.some.inj h
    exact hinv
  | cons node rest ih =>
    intro acc acc' h hinv
    rcases hstep : refreshNode s env node acc with _ | ⟨acc₁, brk⟩
    · simp only [refreshLoop, hstep] at h
      exact Option.noConfusion h
    · have hinv₁ := refreshNode_leaderless_inv s env node acc acc₁ brk hstep hinv
      cases brk
      · simp only [refreshLoop, hstep] at h
        exact ih acc₁ acc' h hinv₁
      · simp only [refreshLoop, hstep] at h
        obtain rfl := Option.some.inj h
        exact hinv₁

/-- C2 counterexample: two gossip entries on the same host IP — first the
shared-active identity (voting), then a passive one — make the later entry
overwrite the earlier active one in the per-name map.  The refresh resets
`leaderlessSamplesCount` to 0 although the final snapshot contains no peer
marked `lastSeenActive`, where the claim requires the pre-state count (5)
plus 1. -/
theorem refresh_overwrite_counterexample :
    Refresh twoPeerState overwriteRefreshEnv = some overwriteRefreshResult ∧
    twoPeerState.leaderlessSamplesCount = 5 ∧
    overwriteRefreshResult.leaderlessSamplesCount = 0 ∧
    anyActive overwriteRefreshResult.peerStatesByName = false := by
  refine ⟨by decide, rfl, rfl, by decide⟩

/-- C2 amended: on a refresh whose `getClusterNodes` fails the counter is
untouched; on a successful refresh the counter is reset to 0 whenever the
new snapshot contains an active peer, and otherwise becomes either the
pre-state count plus exactly 1 or — only in the corner case where a later
gossip entry for the same peer name overwrote an earlier active entry — 0;
a counter increment always certifies a snapshot without active peers. -/
theorem refresh_leaderless_counter_amended (s : GossipState) (env : RefreshEnv)
    (s' : GossipState) (h : Refresh s env = some s') :
    (env.clusterNodes = none →
      s'.leaderlessSamplesCount = s.leaderlessSamplesCount) ∧
    (∀ nodes : List ClusterNode, env.clusterNodes = some nodes →
      (anyActive s'.peerStatesByName = true → s'.leaderlessSamplesCount = 0) ∧
      (s'.leaderlessSamplesCount = 0 ∨
        s'.leaderlessSamplesCount = s.leaderlessSamplesCount + 1) ∧
      (s'.leaderlessSamplesCount = s.leaderlessSamplesCount + 1 →
        anyActive s'.peerStatesByName = false)) := by
  constructor
  · intro hc
    unfold Refresh at h
    rw [hc] at h
    obtain rfl := Option.some.inj h
    rfl
  · intro nodes hc
    simp only [Refresh, hc] at h
    rcases hl : refreshLoop s env nodes
        ⟨[], true, s.lastActivePeer, s.activePeerLastSeenAt⟩ with _ | acc
    · simp only [hl] at h
      exact Option.noConfusion h
    · simp only [hl] at h
      obtain rfl := Option.some.inj h
      have hinv := refreshLoop_leaderless_inv s env nodes
        ⟨[], true, s.lastActivePeer, s.activePeerLastSeenAt⟩ acc hl (fun _ => rfl)
      refine ⟨?_, ?_, ?_⟩
      · intro ha
        by_cases hf : acc.isLeaderlessSample = true
        · rw [hinv hf] at ha
          cases ha
        · simp [hf]
      · by_cases hf : acc.isLeaderlessSample = true <;> simp [hf]
      · intro hcount
        by_cases hf : acc.isLeaderlessSample = true
        · exact hinv hf
        · simp [hf] at hcount

/-- Witness for C2's amended claim: a concrete refresh that finds a live,
voting active peer resets the counter from 4 to 0. -/
theorem refresh_leaderless_counter_amended_witness :
    activeRefreshResult.leaderlessSamplesCount = 0 :=
  ((refresh_leaderless_counter_amended onePeerState activeRefreshEnv
      activeRefreshResult (by decide)).2
    [⟨"ACT", some "10.0.0.1:8001"⟩] rfl).1 (by decide)

end SolanaValidatorHA
